import Mathlib

/-!
Verification of the session-management layer in `src/back/gcp.py` and the
structured-output validation flow in `src/back/reviewer.py`.

The Python classes are shallowly embedded: the mutable session object becomes
an explicit state record threaded through the operations, the async generator
`send_stream` becomes a function from the initial state, the message and the
list of chunks the remote transport delivers to the resulting state plus the
list of chunks yielded to the caller, and Python exceptions become an
`Except PyError` result.
-/

/-- Errors raised by the Python code paths modelled here. -/
inductive PyError
  | valueError (msg : String)
  | attributeError (msg : String)
  | nameError (missing : String)
deriving DecidableEq, Repr

/-- `vertexai` / `google.genai` wire-level content part, as produced by
`Part.from_text`, `Part.from_bytes`, `Part.from_uri` and `types.Part(...)`. -/
inductive GPart
  | text (s : String)
  | blob (data : List Nat) (mime_type : String)
  | uri (url : String) (mime_type : String)
deriving DecidableEq, Repr

/-- `TextDataPart` pydantic model of gcp.py. -/
structure TextDataPart where
  text : String
deriving DecidableEq, Repr

/-- `TextDataPart.model_dump_gcp`: `Part.from_text(self.text)`. -/
def TextDataPart.model_dump_gcp (p : TextDataPart) : GPart :=
  GPart.text p.text

/-- `BlobDataPart` pydantic model of gcp.py. -/
structure BlobDataPart where
  blob : List Nat
  mime_type : String
deriving DecidableEq, Repr

/-- `BlobDataPart.model_dump_gcp`: `Part.from_bytes({...})`. -/
def BlobDataPart.model_dump_gcp (p : BlobDataPart) : GPart :=
  GPart.blob p.blob p.mime_type

/-- `LinkDataPart` pydantic model of gcp.py. -/
structure LinkDataPart where
  url : String
  mime_type : String
deriving DecidableEq, Repr

/-- `LinkDataPart.model_dump_gcp`: `Part.from_uri({...})`. -/
def LinkDataPart.model_dump_gcp (p : LinkDataPart) : GPart :=
  GPart.uri p.url p.mime_type

/-- The payload of the `DataPart` wrapper model. -/
inductive DataPartInner
  | textPart (p : TextDataPart)
  | blobPart (p : BlobDataPart)
  | linkPart (p : LinkDataPart)
deriving DecidableEq, Repr

/-- `DataPart` pydantic model of gcp.py: wraps one of the three part models. -/
structure DataPart where
  data : DataPartInner
deriving DecidableEq, Repr

/-- Dispatch of `model_dump_gcp` through the union inside `DataPart`. -/
def DataPartInner.model_dump_gcp : DataPartInner → GPart
  | .textPart p => p.model_dump_gcp
  | .blobPart p => p.model_dump_gcp
  | .linkPart p => p.model_dump_gcp

/-- `DataPart.model_dump_gcp`: delegates to the wrapped part. -/
def DataPart.model_dump_gcp (p : DataPart) : GPart :=
  p.data.model_dump_gcp

/-- Any runtime value exposing the `model_dump_gcp` capability
(duck-typed `hasattr(message, 'model_dump_gcp')` check in the source). -/
inductive Dumpable
  | textPart (p : TextDataPart)
  | blobPart (p : BlobDataPart)
  | linkPart (p : LinkDataPart)
  | dataPart (p : DataPart)
deriving DecidableEq, Repr

/-- The wire part a dumpable value converts itself into. -/
def Dumpable.model_dump_gcp : Dumpable → GPart
  | .textPart p => p.model_dump_gcp
  | .blobPart p => p.model_dump_gcp
  | .linkPart p => p.model_dump_gcp
  | .dataPart p => p.model_dump_gcp

/-- An element of a list-shaped message, classified the way the `for item in
message` loop of `GCP._validate_message` classifies it: a string, a dict of
`types.Part` fields, a value with `model_dump_gcp`, or anything else
(`other` carries the Python runtime type name of the unrecognized value). -/
inductive MsgItem
  | str (s : String)
  | dict (p : GPart)
  | typed (d : Dumpable)
  | other (typeName : String)
deriving DecidableEq, Repr

/-- A caller-supplied message (`MessageContent` in the source), classified the
way the isinstance/hasattr dispatch of `_validate_message` classifies it. -/
inductive MessageContent
  | str (s : String)
  | dict (role : String) (parts : List GPart)
  | typed (d : Dumpable)
  | list (items : List MsgItem)
  | other (typeName : String)
deriving DecidableEq, Repr

/-- `types.Content`: a role tag plus ordered wire parts. -/
structure Content where
  role : String
  parts : List GPart
deriving DecidableEq, Repr

/-- One chunk object delivered by the remote streaming endpoint; the layer
only ever reads its text payload. -/
structure Chunk where
  text : String
deriving DecidableEq, Repr

/-- One entry of `self.history`.  `_validate_message` produces either a
`types.Content` (string, dict and list inputs) or, for an input with
`model_dump_gcp`, the bare `Part` that method returns; `_update_history`
appends a `types.Content(role="model", parts=self.response)` whose parts are
the raw accumulated response chunks. -/
inductive HistEntry
  | content (c : Content)
  | rawPart (p : GPart)
  | modelMsg (responses : List Chunk)
deriving DecidableEq, Repr

/-- The role tag an entry carries: `none` for a bare part, which has no role
field of its own. -/
def HistEntry.role : HistEntry → Option String
  | .content c => some c.role
  | .rawPart _ => none
  | .modelMsg _ => some "model"

/-- What the item loop of `GCP._validate_message` contributes for one list
element: `none` means the element matched no branch and is skipped. -/
def MsgItem.toPart : MsgItem → Option GPart
  | .str s => some (GPart.text s)
  | .dict p => some p
  | .typed d => some d.model_dump_gcp
  | .other _ => none

/-- `GCP._validate_message` (gcp.py lines 139-157): isinstance/hasattr
dispatch; strings become a user Content with one text part, dicts are passed
through `types.Content(**message)` field for field, dumpable values return
their own `model_dump_gcp()` result (a bare Part), lists collect the
recognized elements (silently skipping the rest) into a user Content, and
anything else raises `ValueError` naming the runtime type. -/
def GCP._validate_message : MessageContent → Except PyError HistEntry
  | .str s => .ok (.content ⟨"user", [GPart.text s]⟩)
  | .dict role parts => .ok (.content ⟨role, parts⟩)
  | .typed d => .ok (.rawPart d.model_dump_gcp)
  | .list items => .ok (.content ⟨"user", items.filterMap MsgItem.toPart⟩)
  | .other typeName =>
      .error (.valueError ("Unsupported message type: " ++ typeName))

/-- The mutable per-session state of a `GCP` object: `self.history` (None
when the constructor default was used) and the accumulation buffer
`self.response`. -/
structure GCPState where
  history : Option (List HistEntry)
  response : List Chunk
deriving DecidableEq, Repr

/-- `GCP.__init__`: stores the caller-supplied history (default None) and
initializes `self.response = []`. -/
def GCP.init (history : Option (List HistEntry)) : GCPState :=
  { history := history, response := [] }

/-- `GCP._process_response` (gcp.py lines 206-208): append one chunk to the
accumulation buffer. -/
def GCP._process_response (st : GCPState) (c : Chunk) : GCPState :=
  { st with response := st.response ++ [c] }

/-- The `async for response in stream` loop body of `send_stream`: for each
chunk in transport order, `_process_response` it and yield it to the caller.
Returns the state after the loop and the list of yielded chunks. -/
def GCP.processChunks (st : GCPState) (chunks : List Chunk) :
    GCPState × List Chunk :=
  chunks.foldl (fun acc c => (GCP._process_response acc.1 c, acc.2 ++ [c]))
    (st, [])

/-- `GCP._update_history` (gcp.py lines 202-204): append
`types.Content(role="model", parts=self.response)` to the history; on a
`None` history the attribute access on `None` raises. -/
def GCP._update_history (st : GCPState) : Except PyError GCPState :=
  match st.history with
  | some h =>
      .ok { st with history := some (h ++ [HistEntry.modelMsg st.response]) }
  | none => .error (.attributeError "NoneType object has no attribute append")

/-- `GCP.send_stream` (gcp.py lines 184-199) for a run in which the transport
delivers `chunks` and then ends normally: reset the buffer, validate the
message (a `ValueError` propagates before the history is touched), append the
validated message to `self.history` (raises when the history is None), run
the chunk loop, then `_update_history`.  Returns the final state and the
chunks yielded to the caller. -/
def GCP.send_stream (st : GCPState) (message : MessageContent)
    (chunks : List Chunk) : Except PyError (GCPState × List Chunk) :=
  match GCP._validate_message message with
  | .error e => .error e
  | .ok validated =>
    match st.history with
    | none => .error (.attributeError "NoneType object has no attribute append")
    | some h =>
      let stepped :=
        GCP.processChunks
          { history := some (h ++ [validated]), response := [] } chunks
      match GCP._update_history stepped.1 with
      | .error e => .error e
      | .ok st2 => .ok (st2, stepped.2)

/-- `GCP.send_stream` for a run in which the transport fails (or the caller
cancels) after delivering `delivered` chunks: the exception propagates out of
the generator at the loop, so `_update_history` never runs and the session
state observable afterwards is the state at that point. -/
def GCP.send_stream_aborted (st : GCPState) (message : MessageContent)
    (delivered : List Chunk) : Except PyError GCPState :=
  match GCP._validate_message message with
  | .error e => .error e
  | .ok validated =>
    match st.history with
    | none => .error (.attributeError "NoneType object has no attribute append")
    | some h =>
      .ok (GCP.processChunks
        { history := some (h ++ [validated]), response := [] } delivered).1

/-- A sequence of `send_stream` calls, each given as the message plus the
chunks the transport delivers for that call; stops at the first failure. -/
def GCP.run_chat (st : GCPState) :
    List (MessageContent × List Chunk) → Except PyError GCPState
  | [] => .ok st
  | (m, cs) :: rest =>
    match GCP.send_stream st m cs with
    | .error _e => .error _e
    | .ok (st1, _ys) => GCP.run_chat st1 rest

/-- Message shapes whose normalization is forced to carry role "user"
(plain strings and lists; dicts carry their own role and dumpable values
normalize to a bare role-less part). -/
def MessageContent.isUserShaped : MessageContent → Bool
  | .str _ => true
  | .list _ => true
  | _ => false

/-- The role pattern user, model, user, model, ... of length 2n. -/
def userModelRoles : Nat → List (Option String)
  | 0 => []
  | Nat.succ n => some "user" :: some "model" :: userModelRoles n

/-!
Reference-semantics model for `GCP.get_history` (gcp.py lines 216-218).
`return self.history` returns the stored Python list object itself, so the
caller and the session alias one list.  The alias structure is made explicit
with a store of lists addressed by reference index: the session holds a
reference, `get_history` returns that same reference, and an in-place
`list.append` through any reference rewrites the store at that index.
-/

/-- A store of Python list objects addressed by reference index. -/
structure ListHeap where
  store : List (List HistEntry)
deriving DecidableEq, Repr

/-- Dereference: the list an index refers to. -/
def ListHeap.read (hp : ListHeap) (r : Nat) : List HistEntry :=
  hp.store.getD r []

/-- In-place `append` on the list a reference points at. -/
def ListHeap.appendAt (hp : ListHeap) (r : Nat) (e : HistEntry) : ListHeap :=
  ⟨hp.store.set r (hp.store.getD r [] ++ [e])⟩

/-- A `GCP` session viewed at the reference level: it holds a reference to
its history list. -/
structure GCPRef where
  histRef : Nat
deriving DecidableEq, Repr

/-- `GCP.get_history`: `return self.history` — the same reference the session
holds, with no copy taken. -/
def GCP.get_history (g : GCPRef) : Nat :=
  g.histRef

/-!
`GCPChat.__init__` (gcp.py lines 221-264).
-/

/-- What `GCPChat._validate_message` (gcp.py lines 267-294) returns: the
string itself, the dict itself, the bare part from `model_dump_gcp`, or the
`{"parts": parts, "role": "user"}` dict built from a list. -/
inductive ChatValidated
  | plain (s : String)
  | dictC (role : String) (parts : List GPart)
  | gpart (p : GPart)
  | partsDict (parts : List GPart)
deriving DecidableEq, Repr

/-- `GCPChat._validate_message`: strings and dicts pass through unchanged, a
dumpable value returns its `model_dump_gcp()`, a one-element list holding a
single string returns that string, any other list collects its recognized
elements into a user-role parts dict, and anything else raises `ValueError`
naming the runtime type. -/
def GCPChat._validate_message : MessageContent → Except PyError ChatValidated
  | .str s => .ok (.plain s)
  | .dict role parts => .ok (.dictC role parts)
  | .typed d => .ok (.gpart d.model_dump_gcp)
  | .list items =>
    match items with
    | [MsgItem.str s] => .ok (.plain s)
    | _ => .ok (.partsDict (items.filterMap MsgItem.toPart))
  | .other typeName =>
      .error (.valueError ("Unsupported message type: " ++ typeName))

/-- The local variable names bound in the body of `GCPChat.__init__`: its
parameters.  The validated history is stored as the attribute
`self._validated_msg` (line 254), which binds no local name; in particular no
local named `validated_msg` is ever bound, and no such global or builtin
exists in the module. -/
def gcpChatInitLocalNames : List String :=
  ["self", "model", "system_prompt", "config", "history", "kwargs"]

/-- Python name resolution for a bare name inside `GCPChat.__init__`: an
unbound name raises `NameError`. -/
def lookupLocal (localNames : List String) (n : String) : Except PyError Unit :=
  if localNames.contains n then .ok () else .error (.nameError n)

/-- The observable result of a successful `GCPChat.__init__`: whether the
underlying chat was created with a validated history. -/
structure GCPChatState where
  validated_history : Option ChatValidated
deriving DecidableEq, Repr

/-- `GCPChat.__init__` restricted to its history handling (lines 251-264):
`if history:` (truthiness — None and the empty list are falsy), then
`self._validated_msg = self._validate_message(history)` followed by
`chats.create(..., history=validated_msg)`, where the bare name
`validated_msg` must be resolved; the falsy branch creates the chat without
a history. -/
def GCPChat.init (history : Option (List MsgItem)) :
    Except PyError GCPChatState :=
  match history with
  | some (i :: rest) =>
    match GCPChat._validate_message (MessageContent.list (i :: rest)) with
    | .error e => .error e
    | .ok v =>
      match lookupLocal gcpChatInitLocalNames "validated_msg" with
      | .error e => .error e
      | .ok _ => .ok ⟨some v⟩
  | _ => .ok ⟨none⟩

/-!
`GCPLive` (gcp.py lines 394-551).  The session handle `self.session` is
`None` until `connect()` and again after `close()`; live session ids are
minted from a counter so distinct connections are distinguishable.
-/

/-- The connection state of a `GCPLive` object: the current session handle
(None when disconnected or closed) plus a supply of fresh session ids. -/
structure LiveState where
  session : Option Nat
  nextId : Nat
deriving DecidableEq, Repr

/-- `GCPLive.connect`: `if self.session is None: self.session = await
client.aio.live.connect(...)`; an existing session is kept. -/
def GCPLive.connect (st : LiveState) : LiveState :=
  match st.session with
  | some _ => st
  | none => { session := some st.nextId, nextId := st.nextId + 1 }

/-- `GCPLive.close`: closes and clears the session if one is active,
otherwise does nothing. -/
def GCPLive.close (st : LiveState) : LiveState :=
  match st.session with
  | some _ => { st with session := none }
  | none => st

/-- The keyword arguments of `GCPLive.send_stream`, each independently
optional and forwarded verbatim. -/
structure RealtimeInput where
  media : Option String
  audio : Option String
  audio_stream_end : Option Bool
  video : Option String
  text : Option String
  activity_start : Option Bool
  activity_end : Option Bool
deriving DecidableEq, Repr

/-- The outbound transport action a `GCPLive.send_*` call performs, tagged
with the session it was performed on. -/
inductive LiveEffect
  | realtimeSent (sessionId : Nat) (inp : RealtimeInput)
  | toolResponseSent (sessionId : Nat) (function_responses : String)
deriving DecidableEq, Repr

/-- `GCPLive.send_stream` (gcp.py lines 498-525): `if self.session is None:
await self.connect()`, then `self.session.send_realtime_input(...)` with
every field forwarded verbatim. -/
def GCPLive.send_stream (st : LiveState) (inp : RealtimeInput) :
    LiveState × LiveEffect :=
  match st.session with
  | some sid => (st, .realtimeSent sid inp)
  | none => (GCPLive.connect st, .realtimeSent st.nextId inp)

/-- `GCPLive.send_tool_response` (gcp.py lines 527-539): same implicit
connect, then `self.session.send_tool_response(...)` forwarded verbatim. -/
def GCPLive.send_tool_response (st : LiveState) (function_responses : String) :
    LiveState × LiveEffect :=
  match st.session with
  | some sid => (st, .toolResponseSent sid function_responses)
  | none => (GCPLive.connect st, .toolResponseSent st.nextId function_responses)

/-!
Structured-output validation.
-/

/-- Modelled from the spec: the Structured-Output Validator — the
`clean_response` method that `Reviewer.review` (reviewer.py lines 201-208)
calls and that `test_gcp.py` exercises — is absent from `src/back/gcp.py`;
only its caller and its tests are in the repository.  Spec section 4.4 is the
authority here.  The field types a schema contract can declare. -/
inductive FieldTy
  | strTy
  | intTy
  | boolTy
deriving DecidableEq, Repr

/-- Modelled from the spec: a value occurring in a parsed data document. -/
inductive JVal
  | s (v : String)
  | i (v : Int)
  | b (v : Bool)
deriving DecidableEq, Repr

/-- The field type a document value inhabits. -/
def JVal.ty : JVal → FieldTy
  | .s _ => .strTy
  | .i _ => .intTy
  | .b _ => .boolTy

/-- Modelled from the spec: a SchemaContract, "a named, field-typed record
description used to validate final text output". -/
structure SchemaContract where
  fields : List (String × FieldTy)
deriving DecidableEq, Repr

/-- Modelled from the spec: the accumulated response text as the syntactic
parser sees it — either not parseable as a data document at all, or a parsed
record of named fields. -/
inductive Payload
  | malformed (raw : String)
  | record (fields : List (String × JVal))
deriving DecidableEq, Repr

/-- Modelled from the spec: the validation failure taxonomy of section 7. -/
inductive ValidationFailure
  | schemaError (defects : List String)
  | malformedError
deriving DecidableEq, Repr

/-- First value bound to a field name in a parsed document. -/
def Validator.lookupField (fs : List (String × JVal)) (name : String) :
    Option JVal :=
  match fs.find? (fun p => p.1 == name) with
  | some p => some p.2
  | none => none

/-- The defect list for field-matching a document against a contract: the
contract fields that are missing from the document or bound to a value of a
mismatched type. -/
def Validator.defects (c : SchemaContract) (fs : List (String × JVal)) :
    List String :=
  c.fields.filterMap (fun p =>
    match Validator.lookupField fs p.1 with
    | none => some p.1
    | some v => if JVal.ty v == p.2 then none else some p.1)

/-- Modelled from the spec: `validate(text, contract)` of section 4.4.
Unparseable text fails with `MalformedPayloadError`; a parsed record is
checked field-for-field and fails with `SchemaValidationError` carrying the
defect list unless every required field is present with a type-compatible
value; there is no partial or lenient mode. -/
def Validator.validate (p : Payload) (c : SchemaContract) :
    Except ValidationFailure (List (String × JVal)) :=
  match p with
  | .malformed _ => .error .malformedError
  | .record fs =>
    if Validator.defects c fs = [] then .ok fs
    else .error (.schemaError (Validator.defects c fs))

/-!
Helper lemmas.
-/

/-- Unfolding of the chunk loop fold: the buffer and the yields each extend
by the chunk list, in order. -/
theorem GCP.processChunks_foldl (chunks : List Chunk) :
    ∀ (st : GCPState) (ys : List Chunk),
      chunks.foldl
          (fun acc c => (GCP._process_response acc.1 c, acc.2 ++ [c]))
          (st, ys)
        = ({ st with response := st.response ++ chunks }, ys ++ chunks) := by
  induction chunks with
  | nil => intro st ys; simp
  | cons c cs ih =>
    intro st ys
    simp only [List.foldl_cons]
    rw [ih]
    simp [GCP._process_response]

/-- The chunk loop appends the chunks to the buffer and yields exactly the
chunk list. -/
theorem GCP.processChunks_eq (st : GCPState) (chunks : List Chunk) :
    GCP.processChunks st chunks
      = ({ st with response := st.response ++ chunks }, chunks) := by
  unfold GCP.processChunks
  rw [GCP.processChunks_foldl]
  simp

/-- A successful `send_stream` computed explicitly: the user message and one
model message land at the end of the history and the chunks are yielded. -/
theorem GCP.send_stream_eq_ok (h : List HistEntry) (r : List Chunk)
    (m : MessageContent) (cs : List Chunk) (v : HistEntry)
    (hv : GCP._validate_message m = .ok v) :
    GCP.send_stream ⟨some h, r⟩ m cs
      = .ok (⟨some (h ++ [v] ++ [HistEntry.modelMsg cs]), cs⟩, cs) := by
  simp [GCP.send_stream, hv, GCP.processChunks_eq, GCP._update_history]

/-- Inversion of a successful `send_stream`: the initial history must have
been a list, the message must validate, and the result has the computed
shape. -/
theorem GCP.send_stream_ok_elim (st : GCPState) (m : MessageContent)
    (cs : List Chunk) (st' : GCPState) (ys : List Chunk)
    (hok : GCP.send_stream st m cs = .ok (st', ys)) :
    ∃ h v, st.history = some h ∧ GCP._validate_message m = .ok v ∧
      st' = ⟨some (h ++ [v] ++ [HistEntry.modelMsg cs]), cs⟩ ∧ ys = cs := by
  obtain ⟨hist, resp⟩ := st
  cases hv : GCP._validate_message m with
  | error e => simp [GCP.send_stream, hv] at hok
  | ok v =>
    cases hist with
    | none => simp [GCP.send_stream, hv] at hok
    | some h =>
      rw [GCP.send_stream_eq_ok h resp m cs v hv] at hok
      simp only [Except.ok.injEq, Prod.mk.injEq] at hok
      exact ⟨h, v, rfl, rfl, hok.1.symm, hok.2.symm⟩

/-- A string or list input always validates, to an entry of role "user". -/
theorem GCP.validate_userShaped_role (m : MessageContent) (v : HistEntry)
    (hm : MessageContent.isUserShaped m = true)
    (hv : GCP._validate_message m = .ok v) :
    HistEntry.role v = some "user" := by
  cases m with
  | str s =>
    simp only [GCP._validate_message, Except.ok.injEq] at hv
    rw [← hv]; rfl
  | list items =>
    simp only [GCP._validate_message, Except.ok.injEq] at hv
    rw [← hv]; rfl
  | dict role parts => simp [MessageContent.isUserShaped] at hm
  | typed d => simp [MessageContent.isUserShaped] at hm
  | other t => simp [MessageContent.isUserShaped] at hm

/-- Shape of the history after a successful sequence of `send_stream` calls:
each call contributes a validated user message followed by a model message,
and when every input is a string or a list the contributed roles read
user, model, user, model, and so on. -/
theorem GCP.run_chat_shape (calls : List (MessageContent × List Chunk)) :
    ∀ (h : List HistEntry) (r : List Chunk) (st' : GCPState),
      GCP.run_chat ⟨some h, r⟩ calls = .ok st' →
      ∃ tail, st'.history = some (h ++ tail) ∧
        tail.length = 2 * calls.length ∧
        ((∀ p ∈ calls, MessageContent.isUserShaped p.1 = true) →
          tail.map HistEntry.role = userModelRoles calls.length) := by
  induction calls with
  | nil =>
    intro h r st' hok
    simp only [GCP.run_chat, Except.ok.injEq] at hok
    exact ⟨[], by simp [← hok], by simp, by simp [userModelRoles]⟩
  | cons p rest ih =>
    obtain ⟨m, cs⟩ := p
    intro h r st' hok
    rw [GCP.run_chat] at hok
    cases hs : GCP.send_stream ⟨some h, r⟩ m cs with
    | error e => rw [hs] at hok; cases hok
    | ok pr =>
      obtain ⟨st1, ys⟩ := pr
      rw [hs] at hok
      obtain ⟨h1, v, hh1, hv, hst1, -⟩ :=
        GCP.send_stream_ok_elim _ _ _ _ _ hs
      simp only [Option.some.injEq] at hh1
      subst hh1
      subst hst1
      obtain ⟨tail', htl, hlen, hroles⟩ := ih _ _ _ hok
      refine ⟨v :: HistEntry.modelMsg cs :: tail', ?_, ?_, ?_⟩
      · rw [htl]; simp
      · simp only [List.length_cons]; omega
      · intro huser
        have hm : MessageContent.isUserShaped m = true :=
          huser (m, cs) (List.mem_cons_self _ _)
        have hrest : ∀ p ∈ rest, MessageContent.isUserShaped p.1 = true :=
          fun q hq => huser q (List.mem_cons_of_mem _ hq)
        simp only [List.map_cons, hroles hrest, List.length_cons]
        rw [GCP.validate_userShaped_role m v hm hv]
        rfl

/-!
Claim theorems.
-/

/-- C1 (amended): after N successful `send_stream` calls in chat mode on a
session whose transcript started empty, the transcript contains exactly 2N
messages, each call contributing its normalized input followed by one
model-authored message; when every input is plain text or a list — shapes
that normalize with role "user" — the role order is user, model, user,
model, and so on.  (A pre-built record input keeps the caller-specified
role, so the user/model order is not unconditional.) -/
theorem chat_mode_transcript_after_n_calls
    (calls : List (MessageContent × List Chunk)) (st' : GCPState)
    (hok : GCP.run_chat ⟨some [], []⟩ calls = .ok st') :
    ∃ l, st'.history = some l ∧ l.length = 2 * calls.length ∧
      ((∀ p ∈ calls, MessageContent.isUserShaped p.1 = true) →
        l.map HistEntry.role = userModelRoles calls.length) := by
  obtain ⟨tail, ht, hlen, hroles⟩ := GCP.run_chat_shape calls [] [] st' hok
  exact ⟨tail, by simpa using ht, hlen, hroles⟩

/-- Witness for C1: one successful chat call with a plain-text message. -/
theorem chat_mode_transcript_after_n_calls_witness :
    ∃ l, (GCPState.mk
        (some [HistEntry.content ⟨"user", [GPart.text "hi"]⟩,
               HistEntry.modelMsg [⟨"a"⟩]]) [⟨"a"⟩]).history = some l ∧
      l.length = 2 * ([((MessageContent.str "hi"), [Chunk.mk "a"])]).length ∧
      ((∀ p ∈ [((MessageContent.str "hi"), [Chunk.mk "a"])],
          MessageContent.isUserShaped p.1 = true) →
        l.map HistEntry.role
          = userModelRoles
              ([((MessageContent.str "hi"), [Chunk.mk "a"])]).length) :=
  chat_mode_transcript_after_n_calls
    [((MessageContent.str "hi"), [Chunk.mk "a"])] _ rfl

/-- C1 counterexample: a successful chat call whose message is a pre-built
record with role "model" yields a transcript of two messages whose roles are
model, model — not user, model as the claim states. -/
theorem chat_mode_record_role_breaks_order :
    GCP.send_stream ⟨some [], []⟩
        (MessageContent.dict "model" [GPart.text "hi"]) [⟨"ok"⟩]
      = .ok (⟨some [HistEntry.content ⟨"model", [GPart.text "hi"]⟩,
                    HistEntry.modelMsg [⟨"ok"⟩]], [⟨"ok"⟩]⟩, [⟨"ok"⟩]) ∧
    [HistEntry.content ⟨"model", [GPart.text "hi"]⟩,
        HistEntry.modelMsg [⟨"ok"⟩]].map HistEntry.role
      ≠ userModelRoles 1 :=
  ⟨rfl, by decide⟩

/-- C2: for one successful streaming call, the chunks yielded to the caller
are exactly the chunks received, unmodified and in order, and the
accumulator's final content is that same list, so the concatenation of all
yielded chunk texts equals the concatenation of the accumulated texts. -/
theorem stream_yield_accumulator_agreement (st : GCPState)
    (m : MessageContent) (cs : List Chunk) (st' : GCPState) (ys : List Chunk)
    (hok : GCP.send_stream st m cs = .ok (st', ys)) :
    ys = cs ∧ st'.response = cs ∧
      String.join (st'.response.map Chunk.text)
        = String.join (ys.map Chunk.text) := by
  obtain ⟨h, v, -, -, hst', hys⟩ := GCP.send_stream_ok_elim st m cs st' ys hok
  subst hst'
  subst hys
  exact ⟨rfl, rfl, rfl⟩

/-- Witness for C2: a two-chunk stream. -/
theorem stream_yield_accumulator_agreement_witness :
    ([Chunk.mk "a", Chunk.mk "b"] : List Chunk) = [⟨"a"⟩, ⟨"b"⟩] ∧
    (GCPState.mk (some [HistEntry.content ⟨"user", [GPart.text "q"]⟩,
        HistEntry.modelMsg [⟨"a"⟩, ⟨"b"⟩]]) [⟨"a"⟩, ⟨"b"⟩]).response
      = [⟨"a"⟩, ⟨"b"⟩] ∧
    String.join ((GCPState.mk
        (some [HistEntry.content ⟨"user", [GPart.text "q"]⟩,
          HistEntry.modelMsg [⟨"a"⟩, ⟨"b"⟩]])
        [⟨"a"⟩, ⟨"b"⟩]).response.map Chunk.text)
      = String.join (([Chunk.mk "a", Chunk.mk "b"]).map Chunk.text) :=
  stream_yield_accumulator_agreement ⟨some [], []⟩ (.str "q")
    [⟨"a"⟩, ⟨"b"⟩] _ _ rfl

/-- C3 (amended): a top-level input that matches none of the accepted
capabilities makes normalization fail with a `ValueError` naming the
offending runtime type, with no Message constructed; but an unrecognized
element inside a list input does NOT cause this failure — the element is
silently dropped and the recognized elements form a user-role Message. -/
theorem unsupported_input_error_and_list_drop :
    (∀ t, GCP._validate_message (.other t)
        = .error (.valueError ("Unsupported message type: " ++ t))) ∧
    (∀ items, GCP._validate_message (.list items)
        = .ok (.content ⟨"user", items.filterMap MsgItem.toPart⟩)) :=
  ⟨fun _t => rfl, fun _items => rfl⟩

/-- C3 counterexample: a list containing only an unrecognized element
normalizes successfully (to a Message with no parts) instead of failing. -/
theorem list_with_unrecognized_element_succeeds :
    GCP._validate_message (.list [MsgItem.other "int"])
      = .ok (.content ⟨"user", []⟩) ∧
    ∀ e, GCP._validate_message (.list [MsgItem.other "int"]) ≠ .error e := by
  refine ⟨rfl, ?_⟩
  intro e hcontra
  simp [GCP._validate_message] at hcontra

/-- C4 (amended): plain text normalizes to a one-part user Message; a
pre-built record passes through with its own role and parts (not forced to
the user default); a typed part produces a single bare wire part rather
than a role-tagged Message; and a list input yields a user Message whose
parts are its recognized elements, non-empty whenever at least one element
is recognized. -/
theorem normalize_accepted_shapes :
    (∀ s, GCP._validate_message (.str s)
        = .ok (.content ⟨"user", [GPart.text s]⟩)) ∧
    (∀ role parts, GCP._validate_message (.dict role parts)
        = .ok (.content ⟨role, parts⟩)) ∧
    (∀ d, GCP._validate_message (.typed d)
        = .ok (.rawPart (Dumpable.model_dump_gcp d))) ∧
    (∀ items, (∃ i ∈ items, (MsgItem.toPart i).isSome = true) →
      ∃ ps, GCP._validate_message (.list items)
          = .ok (.content ⟨"user", ps⟩) ∧ ps ≠ []) := by
  refine ⟨fun _s => rfl, fun _role _parts => rfl, fun _d => rfl, ?_⟩
  rintro items ⟨i, hi, hsome⟩
  refine ⟨items.filterMap MsgItem.toPart, rfl, ?_⟩
  intro hnil
  rw [List.filterMap_eq_nil_iff] at hnil
  rw [hnil i hi] at hsome
  simp at hsome

/-- Witness for C4: a one-element list of a plain string. -/
theorem normalize_accepted_shapes_witness :
    ∃ ps, GCP._validate_message (.list [MsgItem.str "hi"])
        = .ok (.content ⟨"user", ps⟩) ∧ ps ≠ [] :=
  normalize_accepted_shapes.2.2.2 [MsgItem.str "hi"]
    ⟨MsgItem.str "hi", by decide, by decide⟩

/-- C4 counterexample: the empty list is accepted and produces a Message
with an empty part sequence, and a pre-built record with role "model" is
accepted with a role other than the documented user default. -/
theorem normalize_empty_list_and_record_role :
    GCP._validate_message (.list []) = .ok (.content ⟨"user", []⟩) ∧
    GCP._validate_message (.dict "model" [GPart.text "x"])
      = .ok (.content ⟨"model", [GPart.text "x"]⟩) ∧
    ("model" : String) ≠ "user" :=
  ⟨rfl, rfl, by decide⟩

/-- C5: if the stream fails or is cancelled after any number of delivered
chunks, no model message is appended and the transcript is exactly what it
was after the user message was appended — the user message is not rolled
back and the partial accumulation never reaches the transcript. -/
theorem aborted_stream_leaves_user_message_only
    (h : List HistEntry) (r : List Chunk) (m : MessageContent)
    (cs : List Chunk) (v : HistEntry) (st' : GCPState)
    (hv : GCP._validate_message m = .ok v)
    (hab : GCP.send_stream_aborted ⟨some h, r⟩ m cs = .ok st') :
    st'.history = some (h ++ [v]) := by
  simp only [GCP.send_stream_aborted, hv, GCP.processChunks_eq,
    Except.ok.injEq] at hab
  rw [← hab]

/-- Witness for C5: a stream aborted after one chunk. -/
theorem aborted_stream_leaves_user_message_only_witness :
    (GCPState.mk (some [HistEntry.content ⟨"user", [GPart.text "q"]⟩])
        [⟨"pa"⟩]).history
      = some ([] ++ [HistEntry.content ⟨"user", [GPart.text "q"]⟩]) :=
  aborted_stream_leaves_user_message_only [] [] (.str "q") [⟨"pa"⟩]
    _ _ rfl rfl

/-- C6: validation of the accumulated text against a registered contract
fails with `MalformedPayloadError` (never `SchemaValidationError`) when the
text is not syntactically parseable, fails with `SchemaValidationError`
carrying the list of missing or type-mismatched field names when parsing
succeeds but field-matching fails, and succeeds exactly when the defect
list is empty — all-or-nothing, no lenient mode. -/
theorem validator_failure_taxonomy :
    (∀ raw c, Validator.validate (.malformed raw) c
        = .error .malformedError) ∧
    (∀ fs c, Validator.defects c fs ≠ [] →
      Validator.validate (.record fs) c
        = .error (.schemaError (Validator.defects c fs))) ∧
    (∀ fs c, Validator.validate (.record fs) c = .ok fs ↔
      Validator.defects c fs = []) := by
  refine ⟨fun _raw _c => rfl, ?_, ?_⟩
  · intro fs c hne
    simp [Validator.validate, if_neg hne]
  · intro fs c
    constructor
    · intro hok
      by_contra hne
      simp [Validator.validate, if_neg hne] at hok
    · intro hnil
      simp [Validator.validate, if_pos hnil]

/-- Witness for C6: an empty document against a contract requiring a string
field "name". -/
theorem validator_failure_taxonomy_witness :
    Validator.validate (.record []) ⟨[("name", FieldTy.strTy)]⟩
      = .error (.schemaError
          (Validator.defects ⟨[("name", FieldTy.strTy)]⟩ [])) :=
  validator_failure_taxonomy.2.1 [] ⟨[("name", FieldTy.strTy)]⟩ (by decide)

/-- C7 (amended): `get_history` hands back the very reference the session
holds — no defensive copy and no immutable view — so an in-place append
through the returned reference is an append to the stored transcript. -/
theorem get_history_returns_alias (hp : ListHeap) (g : GCPRef)
    (e : HistEntry) (hr : g.histRef < hp.store.length) :
    (hp.appendAt (GCP.get_history g) e).read g.histRef
      = hp.read g.histRef ++ [e] := by
  unfold ListHeap.appendAt ListHeap.read GCP.get_history
  rw [List.getD_eq_getElem?_getD, List.getElem?_set_self',
    List.getD_eq_getElem?_getD, List.getElem?_eq_getElem hr]
  rfl

/-- Witness for C7: a store holding one empty transcript. -/
theorem get_history_returns_alias_witness :
    ((ListHeap.mk [[]]).appendAt (GCP.get_history ⟨0⟩)
        (HistEntry.modelMsg [])).read (GCPRef.mk 0).histRef
      = (ListHeap.mk [[]]).read (GCPRef.mk 0).histRef
          ++ [HistEntry.modelMsg []] :=
  get_history_returns_alias ⟨[[]]⟩ ⟨0⟩ (HistEntry.modelMsg []) (by decide)

/-- C7 counterexample: mutating the sequence returned by `get_history` does
change the stored transcript. -/
theorem get_history_mutation_changes_store :
    (ListHeap.appendAt ⟨[[HistEntry.content ⟨"user", [GPart.text "hi"]⟩]]⟩
        (GCP.get_history ⟨0⟩) (HistEntry.modelMsg [])).read 0
      ≠ (ListHeap.mk
          [[HistEntry.content ⟨"user", [GPart.text "hi"]⟩]]).read 0 := by
  decide

/-- C8 (amended): `send_stream` and `send_tool_response` never fail with a
state error: invoked with no active session (whether never connected or
after `close`, which the code cannot distinguish) they implicitly connect
and then perform the send on the fresh session, forwarding the payload
verbatim; with an active session they send on it. -/
theorem live_send_implicit_connect :
    (∀ st inp, ∃ sid, (GCPLive.send_stream st inp).1.session = some sid ∧
      (GCPLive.send_stream st inp).2 = LiveEffect.realtimeSent sid inp) ∧
    (∀ st rs, ∃ sid,
      (GCPLive.send_tool_response st rs).1.session = some sid ∧
      (GCPLive.send_tool_response st rs).2
        = LiveEffect.toolResponseSent sid rs) := by
  constructor
  · intro st inp
    cases hs : st.session with
    | some sid => exact ⟨sid, by simp [GCPLive.send_stream, hs]⟩
    | none =>
      exact ⟨st.nextId,
        by simp [GCPLive.send_stream, GCPLive.connect, hs]⟩
  · intro st rs
    cases hs : st.session with
    | some sid => exact ⟨sid, by simp [GCPLive.send_tool_response, hs]⟩
    | none =>
      exact ⟨st.nextId,
        by simp [GCPLive.send_tool_response, GCPLive.connect, hs]⟩

/-- C8 counterexample: after `close`, `send_stream` performs the send (on an
implicitly reopened session) instead of failing with a state error. -/
theorem live_send_after_close_performs_send :
    GCPLive.send_stream (GCPLive.close ⟨some 3, 4⟩)
        ⟨none, none, none, none, some "hello", none, none⟩
      = (⟨some 4, 5⟩, LiveEffect.realtimeSent 4
          ⟨none, none, none, none, some "hello", none, none⟩) := rfl

/-- C9: on a session constructed with the default history (None), every
chat-mode `send_stream` call fails before the remote call is issued and
before any chunk is produced, whatever the transport would have delivered;
for a supported message the failure is precisely the attribute error from
appending to None.  Chat mode therefore needs a caller-supplied history
list. -/
theorem send_stream_default_history_always_errors :
    (∀ m cs, ∃ e, GCP.send_stream (GCP.init none) m cs = .error e) ∧
    (∀ s cs, GCP.send_stream (GCP.init none) (.str s) cs
        = .error
            (.attributeError "NoneType object has no attribute append")) := by
  constructor
  · intro m cs
    cases hv : GCP._validate_message m with
    | error e => exact ⟨e, by simp [GCP.send_stream, GCP.init, hv]⟩
    | ok v =>
      exact ⟨.attributeError "NoneType object has no attribute append",
        by simp [GCP.send_stream, GCP.init, hv]⟩
  · intro s cs
    rfl

/-- C10: constructing a GCPChat session with a non-empty history always
raises `NameError` for the unbound name `validated_msg`, so a GCPChat
session can never be created from a pre-existing transcript. -/
theorem gcpchat_init_nonempty_history_nameerror
    (i : MsgItem) (rest : List MsgItem) :
    GCPChat.init (some (i :: rest))
      = .error (.nameError "validated_msg") := by
  cases rest with
  | nil => cases i <;> rfl
  | cons x xs => cases i <;> rfl
